import Mathlib

/-!
Verification of the MubarakAI dispatcher and ledger core.

The definitions below are a shallow embedding of the core described in
spec.md: the in-memory blockchain ledger, the request dispatcher
`MubarakAI.process_request` (main_app.py), the `redis_cache` decorator
(caching.py) and the initial-role detection (`_detect_initial_roles`,
main_app.py).  Stateful Python code is modelled by explicit state passing;
a raised Python exception is modelled by an explicit outcome constructor.
-/

namespace Mubarak

/-- A ledger transaction: sender id, recipient id, positive amount
(blockchain.py `TransactionSchema`; spec section 3 "Transaction"). -/
structure Transaction where
  sender : String
  recipient : String
  amount : Nat
deriving DecidableEq, Repr

/-- A ledger block: index, timestamp, ordered transaction list, proof value,
miner identifier and previous-block hash (spec section 3 "Block";
section 4.2 adds the caller-supplied miner identifier). -/
structure Block where
  index : Nat
  timestamp : Nat
  transactions : List Transaction
  proof : Nat
  miner : String
  previous_hash : Nat
deriving DecidableEq, Repr

/-- A simple string hash used by the block-hash stand-in below. -/
def strHash (s : String) : Nat :=
  s.data.foldl (fun h c => h * 31 + c.toNat) 7

/-- Hash of one transaction, used by the block-hash stand-in below. -/
def txHash (t : Transaction) : Nat :=
  (strHash t.sender * 31 + strHash t.recipient) * 31 + t.amount

/-- Modelled from the spec: the hash function over blocks.  The concrete
`BlockchainLedger` implementation (core/blockchain.py) is not under src/;
the spec only requires that each block's stored previous-hash equal "the
hash of the prior block", so any computable function of the whole block is
a faithful stand-in for the implementation's digest. -/
def blockHash (b : Block) : Nat :=
  ((((b.index * 31 + b.timestamp) * 31 +
      b.transactions.foldl (fun h t => h * 31 + txHash t) 7) * 31 +
     b.proof) * 31 + strHash b.miner) * 31 + b.previous_hash

/-- Modelled from the spec: the genesis block that the ledger constructor
creates, so that "a chain of N seals produces exactly N+1 blocks including
the genesis block" (spec section 8). -/
def genesisBlock : Block :=
  { index := 1, timestamp := 0, transactions := [], proof := 100,
    miner := "0", previous_hash := 0 }

/-- Modelled from the spec: the in-process ledger state — a chain of blocks
and a pending-transaction pool (spec sections 3 and 4.2); the implementation
(core/blockchain.py) is not under src/, only its caller main_app.py is. -/
structure BlockchainLedger where
  chain : List Block
  pending_transactions : List Transaction
deriving DecidableEq, Repr

/-- Modelled from the spec: a fresh ledger holds exactly the genesis block
and an empty pending pool. -/
def BlockchainLedger.init : BlockchainLedger :=
  { chain := [genesisBlock], pending_transactions := [] }

/-- Modelled from the spec: `create_block(proof, miner)` — "sealing a block
always moves every currently pending transaction into the new block and
leaves the pending pool empty; the new block's previous-hash equals the
hash of the block it follows" (spec sections 4.2 and 8). -/
def BlockchainLedger.create_block (l : BlockchainLedger) (proof : Nat)
    (miner : String) (now : Nat) : BlockchainLedger :=
  let prev : Nat :=
    match l.chain.getLast? with
    | some b => blockHash b
    | none => 0
  let b : Block :=
    { index := l.chain.length + 1, timestamp := now,
      transactions := l.pending_transactions, proof := proof,
      miner := miner, previous_hash := prev }
  { chain := l.chain ++ [b], pending_transactions := [] }

/-- Modelled from the spec: adding a transaction appends it to the pending
pool (spec section 3 "Transaction": "otherwise lives only in the pending
pool"). -/
def BlockchainLedger.new_transaction (l : BlockchainLedger)
    (t : Transaction) : BlockchainLedger :=
  { l with pending_transactions := l.pending_transactions ++ [t] }

/-- An operation on the ledger: either a new pending transaction or a seal
(`create_block` with a proof, a miner id and a timestamp). -/
inductive LedgerOp
  | newTx (t : Transaction)
  | sealBlock (proof : Nat) (miner : String) (now : Nat)
deriving DecidableEq, Repr

/-- Apply one ledger operation to a ledger state. -/
def applyOp (l : BlockchainLedger) : LedgerOp → BlockchainLedger
  | .newTx t => l.new_transaction t
  | .sealBlock p m n => l.create_block p m n

/-- Run a sequence of ledger operations from the freshly constructed
ledger: the reachable ledger states are exactly the values of this
function. -/
def runOps (ops : List LedgerOp) : BlockchainLedger :=
  ops.foldl applyOp BlockchainLedger.init

/-- Whether a ledger operation is a seal. -/
def isSeal : LedgerOp → Bool
  | .sealBlock _ _ _ => true
  | .newTx _ => false

/-- The hash-linking invariant on a chain: every block's stored
previous-hash equals the hash of the block it follows. -/
def chainLinked : List Block → Bool
  | [] => true
  | [_] => true
  | a :: b :: rest => (b.previous_hash == blockHash a) && chainLinked (b :: rest)

theorem chainLinked_append_last (c : List Block) (b : Block) :
    chainLinked (c ++ [b]) =
      (chainLinked c &&
        match c.getLast? with
        | none => true
        | some a => b.previous_hash == blockHash a) := by
  induction c with
  | nil => simp [chainLinked]
  | cons a t ih =>
    cases t with
    | nil => simp [chainLinked]
    | cons a2 t2 =>
      have hcons : (a :: a2 :: t2) ++ [b] = a :: ((a2 :: t2) ++ [b]) := rfl
      rw [hcons]
      have h1 : chainLinked (a :: ((a2 :: t2) ++ [b])) =
          ((a2.previous_hash == blockHash a) &&
            chainLinked ((a2 :: t2) ++ [b])) := rfl
      rw [h1, ih]
      have h2 : (a :: a2 :: t2).getLast? = (a2 :: t2).getLast? := by
        simp [List.getLast?_cons_cons]
      rw [h2]
      have h3 : chainLinked (a :: a2 :: t2) =
          ((a2.previous_hash == blockHash a) && chainLinked (a2 :: t2)) := rfl
      rw [h3]
      cases hp : (a2.previous_hash == blockHash a) <;> simp

theorem chainLinked_create_block (l : BlockchainLedger) (p : Nat)
    (m : String) (n : Nat) (h : chainLinked l.chain = true) :
    chainLinked (l.create_block p m n).chain = true := by
  show chainLinked (l.chain ++ [_]) = true
  rw [chainLinked_append_last, h]
  cases hl : l.chain.getLast? with
  | none => simp
  | some a => simp [BlockchainLedger.create_block, hl]

theorem chainLinked_foldl (ops : List LedgerOp) (l : BlockchainLedger)
    (h : chainLinked l.chain = true) :
    chainLinked (ops.foldl applyOp l).chain = true := by
  induction ops generalizing l with
  | nil => exact h
  | cons op rest ih =>
    cases op with
    | newTx t => exact ih _ h
    | sealBlock p m n => exact ih _ (chainLinked_create_block l p m n h)

theorem chain_length_foldl (ops : List LedgerOp) (l : BlockchainLedger) :
    (ops.foldl applyOp l).chain.length =
      l.chain.length + ops.countP isSeal := by
  induction ops generalizing l with
  | nil => simp
  | cons op rest ih =>
    cases op with
    | newTx t =>
      show (rest.foldl applyOp (l.new_transaction t)).chain.length = _
      rw [ih]
      simp [BlockchainLedger.new_transaction, List.countP_cons, isSeal]
    | sealBlock p m n =>
      show (rest.foldl applyOp (l.create_block p m n)).chain.length = _
      rw [ih]
      simp [BlockchainLedger.create_block, List.countP_cons, isSeal]
      omega

theorem chainLinked_consecutive (c : List Block) :
    ∀ i a b, chainLinked c = true → c.get? i = some a →
      c.get? (i + 1) = some b → b.previous_hash = blockHash a := by
  induction c with
  | nil =>
    intro i a b _ ha _
    simp at ha
  | cons x t ih =>
    intro i a b h ha hb
    cases t with
    | nil =>
      cases i with
      | zero => simp at hb
      | succ j => simp at ha
    | cons y t2 =>
      have hand : ((y.previous_hash == blockHash x) &&
          chainLinked (y :: t2)) = true := h
      have h1 : (y.previous_hash == blockHash x) = true := by
        cases hyp : (y.previous_hash == blockHash x) with
        | true => rfl
        | false => rw [hyp] at hand; simp at hand
      have h2 : chainLinked (y :: t2) = true := by
        cases hyp : chainLinked (y :: t2) with
        | true => rfl
        | false => rw [hyp] at hand; simp at hand
      cases i with
      | zero =>
        have hax : x = a := by simpa using ha
        have hby : y = b := by simpa using hb
        subst hax; subst hby
        exact eq_of_beq h1
      | succ j =>
        have ha2 : (y :: t2).get? j = some a := by simpa using ha
        have hb2 : (y :: t2).get? (j + 1) = some b := by simpa using hb
        exact ih j a b h2 ha2 hb2

/-- C5: sealing the ledger with pending pool P appends exactly one block
whose transaction list is exactly P, and leaves the pending pool empty.
(`spec-modelled`: core/blockchain.py is not under src/.) -/
theorem C5_seal_moves_pending (l : BlockchainLedger) (proof : Nat)
    (miner : String) (now : Nat) :
    ∃ b : Block, (l.create_block proof miner now).chain = l.chain ++ [b] ∧
      b.transactions = l.pending_transactions ∧
      (l.create_block proof miner now).pending_transactions = [] :=
  ⟨_, rfl, rfl, rfl⟩

/-- C6: at every reachable ledger state, every pair of consecutive blocks
is hash-linked (the later block's stored previous-hash equals the hash of
the earlier block), and the chain length is the number of seal operations
performed plus one (the genesis block).
(`spec-modelled`: core/blockchain.py is not under src/.) -/
theorem C6_chain_linked_and_length (ops : List LedgerOp) :
    ((runOps ops).chain.length = ops.countP isSeal + 1) ∧
    ∀ i a b, (runOps ops).chain.get? i = some a →
      (runOps ops).chain.get? (i + 1) = some b →
      b.previous_hash = blockHash a := by
  constructor
  · have h := chain_length_foldl ops BlockchainLedger.init
    simpa [runOps, BlockchainLedger.init, Nat.add_comm] using h
  · intro i a b ha hb
    have hlinked : chainLinked (runOps ops).chain = true :=
      chainLinked_foldl ops BlockchainLedger.init rfl
    exact chainLinked_consecutive _ i a b hlinked ha hb

/-- A demonstration transaction for the C6 witness. -/
def demoTx : Transaction := { sender := "alice", recipient := "bob", amount := 5 }

/-- A demonstration operation sequence for the C6 witness: one pending
transaction followed by one seal. -/
def demoOps : List LedgerOp := [.newTx demoTx, .sealBlock 42 "miner1" 7]

/-- The block the demonstration seal produces. -/
def demoBlock : Block :=
  { index := 2, timestamp := 7, transactions := [demoTx], proof := 42,
    miner := "miner1", previous_hash := blockHash genesisBlock }

theorem C6_witness :
    ((runOps demoOps).chain.length = demoOps.countP isSeal + 1) ∧
    demoBlock.previous_hash = blockHash genesisBlock := by
  refine ⟨(C6_chain_linked_and_length demoOps).1, ?_⟩
  exact (C6_chain_linked_and_length demoOps).2 0 genesisBlock demoBlock
    (by decide) (by decide)

/-- Modelled from the spec: the `ModuleType` enum (imported by main_app.py
from the `models` module, which is not under src/).  Its members mirror the
seven modules registered in `MubarakAI.__init__` (main_app.py lines 42-50),
matching the spec's "seven independent domain handlers". -/
inductive ModuleType
  | FARD_AI
  | BAITUL_HIKMA
  | AR_RIHLA
  | UMMAH_WAQF
  | SALAM_HEALTH
  | NUTRITION_HALAL
  | CAREER_UMMA
deriving DecidableEq, Repr

/-- Modelled from the spec: the enum-like string tag of each module
("Dynamic module registry keyed by enum-like string tags", spec section 9).
Python's `ModuleType(name)` raises `ValueError` when `name` is not the
value of any member; that is modelled by `none` here. -/
def ModuleType.fromString : String → Option ModuleType
  | "fard_ai" => some .FARD_AI
  | "baitul_hikma" => some .BAITUL_HIKMA
  | "ar_rihla" => some .AR_RIHLA
  | "ummah_waqf" => some .UMMAH_WAQF
  | "salam_health" => some .SALAM_HEALTH
  | "nutrition_halal" => some .NUTRITION_HALAL
  | "career_umma" => some .CAREER_UMMA
  | _ => none

/-- The keys of the `self.modules` registry built in `MubarakAI.__init__`
(main_app.py lines 42-50): all seven module types. -/
def registeredModules : List ModuleType :=
  [.FARD_AI, .BAITUL_HIKMA, .AR_RIHLA, .UMMAH_WAQF, .SALAM_HEALTH,
   .NUTRITION_HALAL, .CAREER_UMMA]

/-- Modelled from the spec: every module implements the
`process_request` capability (spec section 4.3), so the `hasattr` guard at
main_app.py line 217 passes for each registered module. -/
def moduleHasHandler : ModuleType → Bool := fun _ => true

/-- The loosely typed request envelope as read by `process_request`:
`request.get("module")` and `request.get("type")` (main_app.py lines
208-209).  `module := some s` models a string value, `none` a missing key
(Python `None`). -/
structure RequestEnvelope where
  module : Option String
  rtype : Option String
deriving DecidableEq, Repr

/-- `ModuleType(module_name) if module_name else ModuleType.FARD_AI`
(main_app.py line 210).  Python tests the *truthiness* of the tag, so a
missing key and the empty string both fall back to `FARD_AI`; any other
string goes through the enum constructor, which yields `none` (a raised
`ValueError`) for non-member strings. -/
def resolveModuleTag (tag : Option String) : Option ModuleType :=
  match tag with
  | some name => if name = "" then some .FARD_AI else ModuleType.fromString name
  | none => some .FARD_AI

/-- Outcome of the delegated module handler call at main_app.py line 231:
either it returned a result dict whose `result.get("success")` is truthy
(`returns true`) or falsy (`returns false`), or it raised an exception. -/
inductive ModOutcome
  | returns (success : Bool)
  | raises
deriving DecidableEq, Repr

/-- The environment a single dispatch runs in: the module handler's
outcome, and whether each of the other awaited collaborator calls inside
the `try` block raises (the user-language query at line 225, the session
commit at line 236, the recommendation engine at line 253). -/
structure DispatchEnv where
  modOutcome : ModOutcome
  queryRaises : Bool
  commitRaises : Bool
  recsRaise : Bool
deriving DecidableEq, Repr

/-- Calls made on the request's database session, in order.  `opened` is
the `self.Session()` acquisition in `get_db_session` (line 113), `closed`
the `session.close()` in its `finally` (line 120). -/
inductive SessionOp
  | opened
  | commit
  | rollback
  | closed
deriving DecidableEq, Repr

/-- The value `process_request` returns to its caller. -/
inductive DispatchResult
  | moduleNotFound
  | noHandler
  | internalError
  | finalResponse (success : Bool)
deriving DecidableEq, Repr

/-- How the `process_request` coroutine finishes: a returned value, or an
exception propagated to the caller. -/
inductive PyOutcome
  | ret (r : DispatchResult)
  | exnValueError
deriving DecidableEq, Repr

/-- Everything observable about one dispatch: the outcome, the ledger state
afterwards, and the session-call trace. -/
structure DispatchOutput where
  outcome : PyOutcome
  ledger : BlockchainLedger
  ops : List SessionOp
deriving DecidableEq, Repr

/-- `MubarakAI.__init__` (main_app.py lines 40-85) assigns no `logger`
attribute to the instance, and no other statement in the repository does;
therefore the `self.logger` lookups at lines 104 and 250 raise
`AttributeError`.  This constant records whether the attribute exists. -/
def mubarakHasLoggerAttr : Bool := false

/-- `self.BLOCK_CREATION_THRESHOLD = 5` (main_app.py line 71). -/
def BLOCK_CREATION_THRESHOLD : Nat := 5

/-- Shallow embedding of `MubarakAI.process_request` (main_app.py lines
203-268), parametric in the threshold and in whether the instance has a
`logger` attribute.  Control flow mirrors the source:
module-tag resolution (line 210, `ValueError` propagates), the registry
check (212-214), the `hasattr` check (217-219), then the session scope
(222) whose body is one big `try` where the user-language query (225), the
handler call (231), the commit/rollback (235-240), the threshold-triggered
`self.logger.info` + `create_block` (249-251) and the recommendation call
(253) run; any exception there is caught at line 265 and converted to the
generic internal-error result; `get_db_session` closes the session in its
`finally` on every path. -/
def process_request (ledger : BlockchainLedger) (threshold : Nat)
    (hasLoggerAttr : Bool) (req : RequestEnvelope) (env : DispatchEnv)
    (proof : Nat) (miner : String) (now : Nat) : DispatchOutput :=
  match resolveModuleTag req.module with
  | none =>
    { outcome := .exnValueError, ledger := ledger, ops := [] }
  | some mt =>
    if mt ∈ registeredModules then
      if moduleHasHandler mt then
        if env.queryRaises then
          { outcome := .ret .internalError, ledger := ledger,
            ops := [.opened, .closed] }
        else
          match env.modOutcome with
          | .raises =>
            { outcome := .ret .internalError, ledger := ledger,
              ops := [.opened, .closed] }
          | .returns success =>
            if success then
              if env.commitRaises then
                { outcome := .ret .internalError, ledger := ledger,
                  ops := [.opened, .commit, .closed] }
              else
                afterCommit ledger threshold hasLoggerAttr env proof miner
                  now true [.opened, .commit, .closed]
            else
              afterCommit ledger threshold hasLoggerAttr env proof miner
                now false [.opened, .rollback, .closed]
      else
        { outcome := .ret .noHandler, ledger := ledger, ops := [] }
    else
      { outcome := .ret .moduleNotFound, ledger := ledger, ops := [] }
where
  /-- The tail of the `try` block after the commit/rollback decision:
  threshold check and block creation (lines 249-251), recommendation
  generation (line 253), final response (lines 257-263). -/
  afterCommit (ledger : BlockchainLedger) (threshold : Nat)
      (hasLoggerAttr : Bool) (env : DispatchEnv) (proof : Nat)
      (miner : String) (now : Nat) (success : Bool)
      (ops : List SessionOp) : DispatchOutput :=
    if ledger.pending_transactions.length ≥ threshold then
      if hasLoggerAttr then
        let ledger2 := ledger.create_block proof miner now
        if env.recsRaise then
          { outcome := .ret .internalError, ledger := ledger2, ops := ops }
        else
          { outcome := .ret (.finalResponse success), ledger := ledger2,
            ops := ops }
      else
        { outcome := .ret .internalError, ledger := ledger, ops := ops }
    else
      if env.recsRaise then
        { outcome := .ret .internalError, ledger := ledger, ops := ops }
      else
        { outcome := .ret (.finalResponse success), ledger := ledger,
          ops := ops }

/-- `process_request` as actually configured on the `MubarakAI` instance:
threshold 5 and no `logger` attribute. -/
def mubarak_process_request (ledger : BlockchainLedger)
    (req : RequestEnvelope) (env : DispatchEnv) (proof : Nat)
    (miner : String) (now : Nat) : DispatchOutput :=
  process_request ledger BLOCK_CREATION_THRESHOLD mubarakHasLoggerAttr req
    env proof miner now

theorem afterCommit_ops (ledger : BlockchainLedger) (threshold : Nat)
    (hasLogger : Bool) (env : DispatchEnv) (proof : Nat) (miner : String)
    (now : Nat) (success : Bool) (ops : List SessionOp) :
    (process_request.afterCommit ledger threshold hasLogger env proof miner
      now success ops).ops = ops := by
  unfold process_request.afterCommit
  split_ifs <;> rfl

theorem mem_registeredModules (mt : ModuleType) : mt ∈ registeredModules := by
  cases mt <;> simp [registeredModules]

/-- C1: dispatching an envelope whose module tag is not a registered module
value does not produce the "module not found" error result: the enum
conversion `ModuleType(module_name)` at main_app.py line 210 raises
`ValueError` before the registry check at line 212 can run, and the
exception propagates to the caller; no session is opened, so nothing is
committed. -/
theorem C1_unknown_tag_raises :
    mubarak_process_request BlockchainLedger.init
      { module := some "unknown_tag", rtype := some "get_learning_progress" }
      { modOutcome := .returns true, queryRaises := false,
        commitRaises := false, recsRaise := false } 1 "node1" 0 =
      { outcome := .exnValueError, ledger := BlockchainLedger.init,
        ops := [] } := rfl

/-- Five pending transactions: exactly the block-creation threshold. -/
def pending5 : List Transaction :=
  [{ sender := "u1", recipient := "w1", amount := 10 },
   { sender := "u2", recipient := "w1", amount := 20 },
   { sender := "u3", recipient := "w2", amount := 30 },
   { sender := "u4", recipient := "w2", amount := 40 },
   { sender := "u5", recipient := "w3", amount := 50 }]

/-- A ledger whose pending pool has reached the threshold. -/
def ledger5 : BlockchainLedger :=
  { chain := [genesisBlock], pending_transactions := pending5 }

/-- A request envelope addressing the registered fard_ai module. -/
def demoReq : RequestEnvelope :=
  { module := some "fard_ai", rtype := some "prayer_completion" }

/-- A dispatch environment where the module handler returns success and no
collaborator call fails. -/
def demoEnvOk : DispatchEnv :=
  { modOutcome := .returns true, queryRaises := false,
    commitRaises := false, recsRaise := false }

/-- C2: with the pending pool at the threshold (5 transactions) and a
successful module result, `process_request` does not seal a block: the
`self.logger.info` call at main_app.py line 250 raises `AttributeError`
(the instance has no `logger` attribute), the exception is caught at line
265, and the dispatcher returns the generic internal error with the ledger
unchanged — `create_block` at line 251 is unreachable. -/
theorem C2_threshold_reached_no_block :
    mubarak_process_request ledger5 demoReq demoEnvOk 9 "node1" 3 =
      { outcome := .ret .internalError, ledger := ledger5,
        ops := [.opened, .commit, .closed] } := rfl

theorem ops_shape_of_returns (ledger : BlockchainLedger) (threshold : Nat)
    (hasLogger : Bool) (req : RequestEnvelope) (env : DispatchEnv)
    (proof : Nat) (miner : String) (now : Nat) (b : Bool)
    (hres : (resolveModuleTag req.module).isSome = true)
    (hq : env.queryRaises = false)
    (hmod : env.modOutcome = .returns b) :
    (process_request ledger threshold hasLogger req env proof miner
        now).ops =
      [.opened] ++ (if b then [SessionOp.commit] else [SessionOp.rollback])
        ++ [.closed] := by
  unfold process_request
  rcases hrt : resolveModuleTag req.module with _ | mt
  · rw [hrt] at hres
    simp at hres
  · have hmem : mt ∈ registeredModules := mem_registeredModules mt
    simp only [hrt, hmem, if_pos, moduleHasHandler, if_true, hq,
      Bool.false_eq_true, if_false, hmod]
    cases b with
    | true =>
      cases hcr : env.commitRaises with
      | true => simp
      | false => simp [afterCommit_ops]
    | false => simp [afterCommit_ops]

/-- C3: whenever the module handler returns a result, the dispatcher
commits the session exactly once if the result's success flag is truthy,
and otherwise rolls back exactly once and never commits (main_app.py lines
235-240). -/
theorem C3_commit_iff_success (ledger : BlockchainLedger)
    (req : RequestEnvelope) (env : DispatchEnv) (proof : Nat)
    (miner : String) (now : Nat) (b : Bool)
    (hres : (resolveModuleTag req.module).isSome = true)
    (hq : env.queryRaises = false)
    (hmod : env.modOutcome = .returns b) :
    ((mubarak_process_request ledger req env proof miner now).ops.count
        SessionOp.commit = if b then 1 else 0) ∧
    ((mubarak_process_request ledger req env proof miner now).ops.count
        SessionOp.rollback = if b then 0 else 1) := by
  have hshape := ops_shape_of_returns ledger BLOCK_CREATION_THRESHOLD
    mubarakHasLoggerAttr req env proof miner now b hres hq hmod
  unfold mubarak_process_request
  rw [hshape]
  cases b <;> exact ⟨by decide, by decide⟩

theorem C3_witness :
    ((mubarak_process_request BlockchainLedger.init demoReq demoEnvOk 1
        "node1" 0).ops.count SessionOp.commit = if true then 1 else 0) ∧
    ((mubarak_process_request BlockchainLedger.init demoReq demoEnvOk 1
        "node1" 0).ops.count SessionOp.rollback = if true then 0 else 1) :=
  C3_commit_iff_success BlockchainLedger.init demoReq demoEnvOk 1 "node1" 0
    true (by decide) rfl rfl

/-- A dispatch environment where the module handler raises. -/
def demoEnvRaises : DispatchEnv :=
  { modOutcome := .raises, queryRaises := false,
    commitRaises := false, recsRaise := false }

/-- C4: when the module handler raises, the dispatcher catches the fault
and returns the generic internal-error result without re-raising — but it
never rolls the session back: the `except` at main_app.py line 265 sits
inside the `async with` body, so the rollback clause of `get_db_session`
(lines 116-118) never fires, and the session trace is acquisition followed
directly by close. -/
theorem C4_fault_caught_but_no_rollback :
    mubarak_process_request BlockchainLedger.init demoReq demoEnvRaises 1
        "node1" 0 =
      { outcome := .ret .internalError, ledger := BlockchainLedger.init,
        ops := [.opened, .closed] } := rfl

theorem processRequest_ops_cases (ledger : BlockchainLedger)
    (threshold : Nat) (hasLogger : Bool) (req : RequestEnvelope)
    (env : DispatchEnv) (proof : Nat) (miner : String) (now : Nat) :
    (process_request ledger threshold hasLogger req env proof miner
        now).ops = [] ∨
    (process_request ledger threshold hasLogger req env proof miner
        now).ops = [.opened, .closed] ∨
    (process_request ledger threshold hasLogger req env proof miner
        now).ops = [.opened, .commit, .closed] ∨
    (process_request ledger threshold hasLogger req env proof miner
        now).ops = [.opened, .rollback, .closed] := by
  unfold process_request
  rcases hrt : resolveModuleTag req.module with _ | mt
  · simp
  · have hmem : mt ∈ registeredModules := mem_registeredModules mt
    simp only [hmem, if_pos, moduleHasHandler, if_true]
    cases hq : env.queryRaises with
    | true => simp
    | false =>
      cases hmo : env.modOutcome with
      | raises => simp
      | returns b =>
        cases b with
        | true =>
          cases hcr : env.commitRaises with
          | true => simp
          | false => simp [afterCommit_ops]
        | false => simp [afterCommit_ops]

/-- C7: on every dispatch that opens a database session, the session is
closed before `process_request` returns, exactly once, and as the last
session operation — `get_db_session` closes it in its `finally`
(main_app.py line 120) on the success, module-failure and caught-fault
paths alike. -/
theorem C7_session_always_closed (ledger : BlockchainLedger)
    (req : RequestEnvelope) (env : DispatchEnv) (proof : Nat)
    (miner : String) (now : Nat)
    (h : SessionOp.opened ∈
      (mubarak_process_request ledger req env proof miner now).ops) :
    ((mubarak_process_request ledger req env proof miner now).ops.getLast?
        = some SessionOp.closed) ∧
    ((mubarak_process_request ledger req env proof miner now).ops.count
        SessionOp.closed = 1) := by
  have hcases := processRequest_ops_cases ledger BLOCK_CREATION_THRESHOLD
    mubarakHasLoggerAttr req env proof miner now
  unfold mubarak_process_request at h ⊢
  rcases hcases with h0 | h1 | h2 | h3
  · rw [h0] at h
    simp at h
  · rw [h1]
    exact ⟨rfl, by decide⟩
  · rw [h2]
    exact ⟨rfl, by decide⟩
  · rw [h3]
    exact ⟨rfl, by decide⟩

theorem C7_witness :
    ((mubarak_process_request ledger5 demoReq demoEnvOk 9 "node1"
        3).ops.getLast? = some SessionOp.closed) ∧
    ((mubarak_process_request ledger5 demoReq demoEnvOk 9 "node1"
        3).ops.count SessionOp.closed = 1) :=
  C7_session_always_closed ledger5 demoReq demoEnvOk 9 "node1" 3
    (by decide)

/-- The Redis key-value store visible to `redis_cache` (caching.py): keys
with their stored serialized value and expiry, as written by `setex`. -/
structure RedisStore where
  entries : List (String × Nat × String)
deriving DecidableEq, Repr

/-- `self.redis.get(key)` on the modelled store. -/
def RedisStore.get (s : RedisStore) (k : String) : Option String :=
  (s.entries.find? (fun e => e.1 == k)).map (fun e => e.2.2)

/-- `self.redis.setex(key, expiration, value)` on the modelled store. -/
def RedisStore.setex (s : RedisStore) (k : String) (expiration : Nat)
    (v : String) : RedisStore :=
  { entries := (k, expiration, v) :: s.entries.filter (fun e => e.1 != k) }

/-- Shallow embedding of the wrapper produced by the `redis_cache`
decorator (caching.py lines 16-52).  `redis = none` models both a missing
`redis` attribute and `self.redis is None` (line 26), in which case the
original function is called directly (line 28).  Otherwise the cached
string is returned after deserialization when present and non-empty
(Python truthiness of `cached_result`, lines 33-36); on a miss the
original function runs, its result is serialized — `none` models a
`TypeError`/`OverflowError` from `json.dumps`, which skips caching (lines
43-48) — and stored with `setex` (line 45).  The pair returned is the
wrapper's return value together with the store afterwards. -/
def redis_cache {α β : Type} (serialize : β → Option String)
    (deserialize : String → β) (redis : Option RedisStore)
    (cacheKey : String) (expiration : Nat) (func : α → β) (x : α) :
    β × Option RedisStore :=
  match redis with
  | none => (func x, none)
  | some store =>
    match store.get cacheKey with
    | some cached =>
      if cached ≠ "" then (deserialize cached, some store)
      else
        let r := func x
        match serialize r with
        | some j => (r, some (store.setex cacheKey expiration j))
        | none => (r, some store)
    | none =>
      let r := func x
      match serialize r with
      | some j => (r, some (store.setex cacheKey expiration j))
      | none => (r, some store)

/-- C8: for every wrapped function and every input, when no Redis client
is configured (the `redis` attribute absent or `None`), the `redis_cache`
wrapper returns exactly the value of the unwrapped function (caching.py
lines 26-28). -/
theorem C8_no_redis_same_value {α β : Type} (serialize : β → Option String)
    (deserialize : String → β) (cacheKey : String) (expiration : Nat)
    (func : α → β) (x : α) :
    (redis_cache serialize deserialize none cacheKey expiration func
        x).1 = func x := rfl

/-- Modelled from the spec plus main_app.py usage: the `UserRole` enum (in
the `models` module, not under src/).  Only the members referenced by
`_detect_initial_roles` (main_app.py lines 385-410) are needed. -/
inductive UserRole
  | MUSLIM
  | STUDENT
  | TEACHER
  | INVESTOR
  | HOST_FAMILY
  | ADMIN
deriving DecidableEq, Repr

/-- Whether `small` occurs at the start of `hay` (character lists). -/
def leadsWith : List Char → List Char → Bool
  | [], _ => true
  | _ :: _, [] => false
  | a :: as, b :: bs => a == b && leadsWith as bs

/-- Python's substring test `needle in hay` on character lists: `needle`
occurs contiguously somewhere in `hay`. -/
def hasSubList (needle : List Char) : List Char → Bool
  | [] => needle.isEmpty
  | c :: t => leadsWith needle (c :: t) || hasSubList needle t

/-- Python's substring test `needle in hay` on strings. -/
def hasSubStr (needle hay : String) : Bool :=
  hasSubList needle.data hay.data

/-- `str.lower()` as used on the profession field (main_app.py line 395);
the keywords compared against it are already lower-case in the source, and
this model lowers the ASCII range. -/
def pyLower (s : String) : String :=
  String.mk (s.data.map Char.toLower)

/-- The fields of `user_data` that `_detect_initial_roles` reads:
`email` and `birth_year` are required keys, `profession` defaults to the
empty string, `family_status` to `None` (main_app.py lines 385-410). -/
structure RegistrationData where
  email : String
  birth_year : Int
  profession : String
  family_status : Option String
deriving DecidableEq, Repr

/-- One conditional role append: Python's `if cond: roles.append(r)`. -/
def addRole (roles : List UserRole) (cond : Bool) (r : UserRole) :
    List UserRole :=
  if cond then roles ++ [r] else roles

/-- The first five steps of `MubarakAI._detect_initial_roles` (main_app.py
lines 385-404): start from `[MUSLIM]`, append `STUDENT` when the age
computed from the current year is between 18 and 30, `TEACHER` /
`INVESTOR` when the lowered profession contains one of the listed
keywords, and `HOST_FAMILY` when the family status equals "family". -/
def rolesBeforeAdmin (nowYear : Int) (d : RegistrationData) :
    List UserRole :=
  let age : Int := nowYear - d.birth_year
  let prof := pyLower d.profession
  addRole
    (addRole
      (addRole
        (addRole [.MUSLIM] (decide (18 ≤ age ∧ age ≤ 30)) .STUDENT)
        (hasSubStr "teacher" prof || hasSubStr "учитель" prof ||
          hasSubStr "преподаватель" prof) .TEACHER)
      (hasSubStr "investor" prof || hasSubStr "инвестор" prof ||
        hasSubStr "финанс" prof) .INVESTOR)
    (d.family_status == some "family") .HOST_FAMILY

/-- Shallow embedding of `MubarakAI._detect_initial_roles` (main_app.py
lines 385-410): the five rules above, then `ADMIN` appended when the
string "admin" occurs in the email address (line 407).  `register_user`
(lines 122-137) stores this list as the new user's roles. -/
def detect_initial_roles (nowYear : Int) (d : RegistrationData) :
    List UserRole :=
  addRole (rolesBeforeAdmin nowYear d) (hasSubStr "admin" d.email) .ADMIN

theorem addRole_mem_iff (roles : List UserRole) (c : Bool) (r s : UserRole) :
    s ∈ addRole roles c r ↔ s ∈ roles ∨ (c = true ∧ s = r) := by
  unfold addRole
  cases c <;> simp

theorem muslim_mem_rolesBeforeAdmin (nowYear : Int) (d : RegistrationData) :
    UserRole.MUSLIM ∈ rolesBeforeAdmin nowYear d := by
  unfold rolesBeforeAdmin
  simp [addRole_mem_iff]

theorem admin_not_mem_rolesBeforeAdmin (nowYear : Int)
    (d : RegistrationData) :
    UserRole.ADMIN ∉ rolesBeforeAdmin nowYear d := by
  unfold rolesBeforeAdmin
  simp [addRole_mem_iff]

/-- C10: every role list produced by `_detect_initial_roles` (and hence
every new user registered by `register_user`) contains `MUSLIM`, and it
contains `ADMIN` exactly when "admin" occurs as a substring of the
supplied email address. -/
theorem C10_initial_roles (nowYear : Int) (d : RegistrationData) :
    UserRole.MUSLIM ∈ detect_initial_roles nowYear d ∧
    (UserRole.ADMIN ∈ detect_initial_roles nowYear d ↔
      hasSubStr "admin" d.email = true) := by
  unfold detect_initial_roles
  constructor
  · rw [addRole_mem_iff]
    exact Or.inl (muslim_mem_rolesBeforeAdmin nowYear d)
  · rw [addRole_mem_iff]
    constructor
    · rintro (h | ⟨hc, _⟩)
      · exact absurd h (admin_not_mem_rolesBeforeAdmin nowYear d)
      · exact hc
    · intro hc
      exact Or.inr ⟨hc, rfl⟩

end Mubarak
